import Mathlib

/-!
# FreshPredict — verification of the Forecast & Alert Engine spec

Shallow embedding of the FreshPredict frontend (Next.js components under
`frontend/src`) and, where the backend is not part of the source tree,
spec-modelled definitions of the Forecast & Alert Engine.  Numbers are
embedded as exact rationals (`ℚ`), day counts as integers (`ℤ`);
JavaScript division semantics (0/0 = NaN, x/0 = ±Infinity) are modelled
explicitly by the `JVal` type where a claim depends on them.
-/

namespace FreshPredict

/-- Alert severity, per `api.ts` (`'high' | 'medium' | 'low'`). -/
inductive Severity where
  | high
  | medium
  | low
deriving DecidableEq, Repr

/-- Sustainability alert type, per `api.ts`
(`'expiry_risk' | 'overstock' | 'slow_moving'`). -/
inductive SusAlertType where
  | expiry_risk
  | overstock
  | slow_moving
deriving DecidableEq, Repr

/-- Preparation alert type, per `api.ts`
(`'demand_spike' | 'stock_out_risk' | 'festive_surge'`). -/
inductive PrepAlertType where
  | demand_spike
  | stock_out_risk
  | festive_surge
deriving DecidableEq, Repr

/-- Forecast trend label, per `api.ts`
(`'increasing' | 'decreasing' | 'stable'`). -/
inductive Trend where
  | increasing
  | decreasing
  | stable
deriving DecidableEq, Repr

/-- `MonthlyTrend` record, as in `ESGScorecard.tsx` / `api.ts`. -/
structure MonthlyTrend where
  month : String
  waste_kg : ℚ
  saved_kg : ℚ
deriving DecidableEq, Repr

/-- `ESGMetrics` record, as in `ESGScorecard.tsx` / `api.ts`. -/
structure ESGMetrics where
  waste_saved_kg : ℚ
  methane_offset_kg_co2e : ℚ
  cost_savings_rm : ℚ
  items_rescued : ℤ
  waste_reduction_percentage : ℚ
  compliance_score : ℚ
  monthly_trend : List MonthlyTrend
deriving DecidableEq, Repr

/-- `SustainabilityAlert` record, as in `api.ts`. -/
structure SustainabilityAlert where
  id : String
  product_id : String
  product_name : String
  alert_type : SusAlertType
  severity : Severity
  message : String
  recommended_action : String
  days_until_expiry : ℤ
  potential_waste_kg : ℚ
  potential_loss_rm : ℚ
  created_at : String
deriving DecidableEq, Repr

/-- `PreparationAlert` record, as in `api.ts`. -/
structure PreparationAlert where
  id : String
  product_id : String
  product_name : String
  alert_type : PrepAlertType
  severity : Severity
  message : String
  recommended_action : String
  predicted_demand_increase : ℚ
  days_until_event : ℤ
  created_at : String
deriving DecidableEq, Repr

/-- `Festival` record, as in `api.ts`. -/
structure Festival where
  name : String
  date : String
  impact_categories : List String
  demand_multiplier : ℚ
  days_until : ℤ
deriving DecidableEq, Repr

/-- `ForecastResult` record, as in `api.ts`. -/
structure ForecastResult where
  product_id : String
  product_name : String
  dates : List String
  predicted_demand : List ℚ
  confidence_lower : List ℚ
  confidence_upper : List ℚ
  trend : Trend
  festive_impact : Option String
deriving DecidableEq, Repr

/-! ## ESGScorecard.tsx — metric construction paths -/

/-- The legacy `wasteSavedKg`-derived metrics constructed in
`ESGScorecard.tsx` lines 35–43 (`setMetrics({...})` in the
`wasteSavedKg && !propMetrics` branch). -/
def legacyMetricsFromWasteSaved (wasteSavedKg : ℚ) : ESGMetrics :=
  { waste_saved_kg := wasteSavedKg
    methane_offset_kg_co2e := wasteSavedKg * 0.918
    cost_savings_rm := wasteSavedKg * 15
    items_rescued := round (wasteSavedKg * 0.3)
    waste_reduction_percentage := wasteSavedKg / 180 * 100
    compliance_score := 85
    monthly_trend := [] }

/-- The hardcoded fallback metrics set in `ESGScorecard.tsx` lines 59–67
when the `/esg` fetch fails. -/
def fallbackMetrics : ESGMetrics :=
  { waste_saved_kg := 150
    methane_offset_kg_co2e := 137.7
    cost_savings_rm := 2250
    items_rescued := 42
    waste_reduction_percentage := 83.3
    compliance_score := 85
    monthly_trend := [] }

/-- `LedgerEvent` of the Sustainability Ledger (spec §3): alert_id,
product_id, quantity_kg, cost_recovered. -/
structure LedgerEvent where
  alert_id : String
  product_id : String
  quantity_kg : ℚ
  cost_recovered : ℚ
deriving DecidableEq, Repr

/-- Modelled from the spec: the backend `computeMetrics` fold of the
Sustainability Ledger (spec §4.4) serving `GET /esg`; `backend/main.py`
is not under `src/`.  `waste_saved_kg = Σ quantity_kg`,
`methane_offset_kg_co2e = waste_saved_kg × 0.918`,
`cost_savings_rm = Σ cost_recovered`, `items_rescued` = event count,
`waste_reduction_percentage = ws ÷ (ws + openWaste) × 100`,
`compliance_score` = 60% of that percentage capped at 100 plus a 40%
reporting-completeness factor, clamped to [0, 100]. -/
def computeMetrics (events : List LedgerEvent) (openWasteKg : ℚ)
    (trend : List MonthlyTrend) : ESGMetrics :=
  let ws : ℚ := (events.map (fun e => e.quantity_kg)).sum
  let pct : ℚ := ws / (ws + openWasteKg) * 100
  { waste_saved_kg := ws
    methane_offset_kg_co2e := ws * 0.918
    cost_savings_rm := (events.map (fun e => e.cost_recovered)).sum
    items_rescued := events.length
    waste_reduction_percentage := pct
    compliance_score := max 0 (min 100 (min pct 100 * 0.6 + 100 * 0.4))
    monthly_trend := trend }

/-- C1: every path that constructs an `ESGMetrics` value keeps
`methane_offset_kg_co2e = waste_saved_kg × 0.918`: the legacy
`wasteSavedKg`-derived path, the hardcoded fetch-failure fallback in the
scorecard, and the (spec-modelled) backend `computeMetrics`. -/
theorem esg_methane_factor_invariant :
    (∀ w : ℚ, (legacyMetricsFromWasteSaved w).methane_offset_kg_co2e =
      (legacyMetricsFromWasteSaved w).waste_saved_kg * 0.918) ∧
    fallbackMetrics.methane_offset_kg_co2e =
      fallbackMetrics.waste_saved_kg * 0.918 ∧
    ∀ (events : List LedgerEvent) (openWasteKg : ℚ) (trend : List MonthlyTrend),
      (computeMetrics events openWasteKg trend).methane_offset_kg_co2e =
        (computeMetrics events openWasteKg trend).waste_saved_kg * 0.918 := by
  refine ⟨fun w => rfl, ?_, fun events openWasteKg trend => rfl⟩
  show (137.7 : ℚ) = 150 * 0.918
  norm_num

/-! ## InventoryTable (in ForecastChart.tsx) — expiry status and labels -/

/-- `getExpiryStatus` from `ForecastChart.tsx` (InventoryTable section):
returns the `(color, label)` pair. -/
def getExpiryStatus (days : ℤ) : String × String :=
  if days ≤ 2 then ("text-rose-600 bg-rose-50", "Critical")
  else if days ≤ 5 then ("text-amber-600 bg-amber-50", "Warning")
  else if days ≤ 10 then ("text-yellow-600 bg-yellow-50", "Monitor")
  else ("text-emerald-600 bg-emerald-50", "Good")

/-- C7: the expiry-risk classification: `days ≤ 2` is the highest
severity (`Critical`), `3 ≤ days ≤ 5` is `Warning`, and the
critical/warning expiry-risk band is left exactly when `days > 5`. -/
theorem expiry_risk_thresholds (d : ℤ) :
    (d ≤ 2 → (getExpiryStatus d).2 = "Critical") ∧
    (3 ≤ d → d ≤ 5 → (getExpiryStatus d).2 = "Warning") ∧
    ((getExpiryStatus d).2 = "Critical" ∨ (getExpiryStatus d).2 = "Warning" →
      d ≤ 5) := by
  unfold getExpiryStatus
  refine ⟨fun h => by simp [h], fun h3 h5 => ?_, fun h => ?_⟩
  · have : ¬ d ≤ 2 := by omega
    simp [this, h5]
  · by_contra hd
    push_neg at hd
    have h2 : ¬ d ≤ 2 := by omega
    have h5 : ¬ d ≤ 5 := by omega
    rcases h with h | h <;> by_cases h10 : d ≤ 10 <;>
      simp [h2, h5, h10] at h

/-- Witness for C7 at concrete day counts 2, 4 and 3. -/
theorem expiry_risk_thresholds_witness :
    (getExpiryStatus 2).2 = "Critical" ∧ (getExpiryStatus 4).2 = "Warning" ∧
    ((getExpiryStatus 3).2 = "Critical" ∨ (getExpiryStatus 3).2 = "Warning" →
      (3 : ℤ) ≤ 5) :=
  ⟨(expiry_risk_thresholds 2).1 (by norm_num),
   (expiry_risk_thresholds 4).2.1 (by norm_num) (by norm_num),
   (expiry_risk_thresholds 3).2.2⟩

/-- The expiry cell of `InventoryTable` (ForecastChart.tsx line 401):
`daysToExpiry <= 0 ? 'Expired' : daysToExpiry + 'd'`. -/
def inventoryExpiryLabel (daysToExpiry : ℤ) : String :=
  if daysToExpiry ≤ 0 then "Expired" else toString daysToExpiry ++ "d"

/-- The status text of a sustainability-alert row
(`SustainabilityAlerts.tsx` lines 173–175): sold alerts read
`'Waste Prevented!'`; otherwise `days_until_expiry <= 0` reads
`'EXPIRED'`, else the day count plus `' days left'`. -/
def alertExpiryText (isSold : Bool) (daysUntilExpiry : ℤ) : String :=
  if isSold then "Waste Prevented!"
  else if daysUntilExpiry ≤ 0 then "EXPIRED"
  else toString daysUntilExpiry ++ " days left"

/-- C4: a lot or unresolved alert with `days_until_expiry ≤ 0`
(including exactly 0) is labelled `Expired` / `EXPIRED`, and the
positive-day-count form is produced exactly when `days > 0`. -/
theorem expiry_zero_reported_expired (d : ℤ) :
    (d ≤ 0 → inventoryExpiryLabel d = "Expired" ∧
      alertExpiryText false d = "EXPIRED") ∧
    (0 < d → inventoryExpiryLabel d = toString d ++ "d" ∧
      alertExpiryText false d = toString d ++ " days left") := by
  constructor
  · intro h
    simp [inventoryExpiryLabel, alertExpiryText, h]
  · intro h
    have h0 : ¬ d ≤ 0 := by omega
    simp [inventoryExpiryLabel, alertExpiryText, h0]

/-- Witness for C4 at the boundary value 0 and at 3. -/
theorem expiry_zero_reported_expired_witness :
    (inventoryExpiryLabel 0 = "Expired" ∧ alertExpiryText false 0 = "EXPIRED") ∧
    (inventoryExpiryLabel 3 = toString (3 : ℤ) ++ "d" ∧
      alertExpiryText false 3 = toString (3 : ℤ) ++ " days left") :=
  ⟨(expiry_zero_reported_expired 0).1 (by norm_num),
   (expiry_zero_reported_expired 3).2 (by norm_num)⟩

/-! ## SustainabilityAlerts.tsx — mark-as-sold flow -/

/-- The JSON body of the `POST /alerts/mark-sold` request built in
`handleMarkAsSold` (`SustainabilityAlerts.tsx` lines 56–61). -/
structure MarkSoldRequest where
  alert_id : String
  product_id : String
  quantity_kg : ℚ
  cost_rm : ℚ
deriving DecidableEq, Repr

/-- The request payload `handleMarkAsSold` sends for an alert:
`quantity_kg` is the alert's `potential_waste_kg` and `cost_rm` its
`potential_loss_rm`. -/
def markSoldRequest (alert : SustainabilityAlert) : MarkSoldRequest :=
  { alert_id := alert.id
    product_id := alert.product_id
    quantity_kg := alert.potential_waste_kg
    cost_rm := alert.potential_loss_rm }

/-- Joint state of the `SustainabilityAlerts` component (`soldAlerts`
set, kept as a list of alert ids) and of the sustainability ledger the
backend appends to. -/
structure MarkSoldState where
  soldAlerts : List String
  ledger : List LedgerEvent
deriving DecidableEq, Repr

/-- One run of `handleMarkAsSold` (`SustainabilityAlerts.tsx` lines
50–73).  `ok` is `response.ok`: the ledger-append request succeeded.  On
success the backend has appended the `LedgerEvent` carried by the
request (spec §4.4, `markSold` appends; the backend itself is not under
`src/`) and the component adds the alert id to `soldAlerts`; on failure
or a thrown fetch error neither happens and the state is unchanged. -/
def handleMarkAsSold (st : MarkSoldState) (alert : SustainabilityAlert)
    (ok : Bool) : MarkSoldState :=
  if ok then
    { soldAlerts := alert.id :: st.soldAlerts
      ledger := st.ledger ++
        [{ alert_id := (markSoldRequest alert).alert_id
           product_id := (markSoldRequest alert).product_id
           quantity_kg := (markSoldRequest alert).quantity_kg
           cost_recovered := (markSoldRequest alert).cost_rm }] }
  else st

/-- The visible pieces of one alert card rendered by
`SustainabilityAlerts` (lines 156–203): badge text, status text,
message, and the recommended action (present only while unsold). -/
structure AlertRowView where
  badge : String
  statusText : String
  message : String
  action : Option String
deriving DecidableEq, Repr

/-- `alertTypeLabels` from `SustainabilityAlerts.tsx`. -/
def alertTypeLabel : SusAlertType → String
  | .expiry_risk => "Expiry Risk"
  | .overstock => "Overstock"
  | .slow_moving => "Slow Moving"

/-- How one alert card renders, as a function of whether its id is in
`soldAlerts` (`SustainabilityAlerts.tsx` lines 156–203). -/
def renderAlertRow (isSold : Bool) (alert : SustainabilityAlert) : AlertRowView :=
  { badge := if isSold then "Sold" else alertTypeLabel alert.alert_type
    statusText := alertExpiryText isSold alert.days_until_expiry
    message := if isSold then "Item sold - ESG metrics updated" else alert.message
    action := if isSold then none else some alert.recommended_action }

/-- C5: when an alert is marked as sold (the request succeeded), the
ledger holds an event whose `quantity_kg` equals the alert's
`potential_waste_kg` and whose cost equals its `potential_loss_rm`. -/
theorem mark_sold_ledger_event_matches (st : MarkSoldState)
    (alert : SustainabilityAlert) :
    alert.id ∈ (handleMarkAsSold st alert true).soldAlerts ∧
    ∃ ev ∈ (handleMarkAsSold st alert true).ledger,
      ev.alert_id = alert.id ∧
      ev.quantity_kg = alert.potential_waste_kg ∧
      ev.cost_recovered = alert.potential_loss_rm := by
  refine ⟨by simp [handleMarkAsSold], ?_⟩
  refine ⟨{ alert_id := alert.id, product_id := alert.product_id,
            quantity_kg := alert.potential_waste_kg,
            cost_recovered := alert.potential_loss_rm }, ?_, rfl, rfl, rfl⟩
  simp [handleMarkAsSold, markSoldRequest]

/-- C6: marking as sold is atomic with respect to the reported alert
state: the alert id is in `soldAlerts` afterwards iff the request
succeeded or it was already there; on failure the whole state is
unchanged and an alert that was unsold still renders with its original
message, action and type badge. -/
theorem mark_sold_atomic (st : MarkSoldState) (alert : SustainabilityAlert)
    (ok : Bool) (hnew : alert.id ∉ st.soldAlerts) :
    (alert.id ∈ (handleMarkAsSold st alert ok).soldAlerts ↔ ok = true) ∧
    handleMarkAsSold st alert false = st ∧
    (ok = false →
      renderAlertRow
        ((handleMarkAsSold st alert ok).soldAlerts.contains alert.id) alert =
      { badge := alertTypeLabel alert.alert_type
        statusText := alertExpiryText false alert.days_until_expiry
        message := alert.message
        action := some alert.recommended_action }) := by
  refine ⟨?_, by simp [handleMarkAsSold], ?_⟩
  · cases ok <;> simp [handleMarkAsSold, hnew]
  · intro hok
    subst hok
    have hst : handleMarkAsSold st alert false = st := by simp [handleMarkAsSold]
    rw [hst]
    have hc : st.soldAlerts.contains alert.id = false := by
      by_contra h
      rw [Bool.not_eq_false, List.contains_iff_exists_mem_beq] at h
      obtain ⟨a, ha, hb⟩ := h
      exact hnew (by rw [beq_iff_eq.mp hb]; exact ha)
    rw [hc]
    simp [renderAlertRow]

/-- Witness for C6: a failed request on a fresh state leaves a concrete
alert unresolved with its original card. -/
theorem mark_sold_atomic_witness :
    let a : SustainabilityAlert :=
      { id := "a1", product_id := "p1", product_name := "Milk",
        alert_type := .expiry_risk, severity := .high, message := "m",
        recommended_action := "act", days_until_expiry := 1,
        potential_waste_kg := 10, potential_loss_rm := 150,
        created_at := "t" }
    let st : MarkSoldState := { soldAlerts := [], ledger := [] }
    (a.id ∈ (handleMarkAsSold st a false).soldAlerts ↔ False) ∧
    handleMarkAsSold st a false = st ∧
    renderAlertRow
        ((handleMarkAsSold st a false).soldAlerts.contains a.id) a =
      { badge := alertTypeLabel a.alert_type
        statusText := alertExpiryText false a.days_until_expiry
        message := a.message
        action := some a.recommended_action } := by
  intro a st
  have h := mark_sold_atomic st a false (by simp)
  exact ⟨by simpa using h.1, h.2.1, h.2.2 rfl⟩

/-! ## FestivalBanner.tsx -/

/-- The visible pieces of the festival banner. -/
structure BannerView where
  name : String
  prepareNowBadge : Bool
  multiplierText : ℚ
  recommendationPct : Option ℚ
deriving DecidableEq, Repr

/-- `isUrgent` from `FestivalBanner.tsx` line 31:
`nextFestival.days_until <= 14`. -/
def festivalIsUrgent (f : Festival) : Bool :=
  f.days_until ≤ 14

/-- The expected-demand-increase percentage shown in the urgent
recommendation (`FestivalBanner.tsx` line 89):
`(demand_multiplier - 1) * 100`. -/
def festivalDemandIncreasePct (f : Festival) : ℚ :=
  (f.demand_multiplier - 1) * 100

/-- The banner `FestivalBanner` renders from the fetched festival list:
the list is truncated to two (`data.slice(0, 2)`), the first one is
shown; the `Prepare Now` badge and the AI recommendation (with its
percentage) appear exactly when the festival is urgent. -/
def festivalBannerView (festivals : List Festival) : Option BannerView :=
  ((festivals.take 2).head?).map fun f =>
    { name := f.name
      prepareNowBadge := festivalIsUrgent f
      multiplierText := f.demand_multiplier
      recommendationPct :=
        if festivalIsUrgent f then some (festivalDemandIncreasePct f) else none }

/-- C9: a festival is flagged urgent exactly when `days_until ≤ 14`, and
the displayed expected demand increase equals
`(demand_multiplier − 1) × 100` percent. -/
theorem festival_urgency_and_increase (festivals : List Festival)
    (f : Festival) (rest : List Festival) (hf : festivals = f :: rest) :
    ∃ v, festivalBannerView festivals = some v ∧
      (v.prepareNowBadge = true ↔ f.days_until ≤ 14) ∧
      (f.days_until ≤ 14 →
        v.recommendationPct = some ((f.demand_multiplier - 1) * 100)) := by
  subst hf
  refine ⟨_, rfl, ?_, ?_⟩
  · simp [festivalIsUrgent]
  · intro h
    simp [festivalIsUrgent, festivalDemandIncreasePct, h]

/-- Witness for C9: a concrete festival 10 days out with a 2.5×
multiplier is urgent and shows a 150% increase. -/
theorem festival_urgency_and_increase_witness :
    let f : Festival :=
      { name := "CNY", date := "2026-02-17", impact_categories := ["poultry"],
        demand_multiplier := 5/2, days_until := 10 }
    ∃ v, festivalBannerView [f] = some v ∧
      (v.prepareNowBadge = true ↔ f.days_until ≤ 14) ∧
      (f.days_until ≤ 14 →
        v.recommendationPct = some ((f.demand_multiplier - 1) * 100)) := by
  intro f
  exact festival_urgency_and_increase [f] f [] rfl

/-! ## Alert panels — display truncation and the View-all control -/

/-- `displayAlerts` of `PreparationAlerts` (`AddStockModal.tsx`,
PreparationAlerts section, line 430): `alerts.slice(0, maxItems)`. -/
def prepDisplayAlerts (alerts : List PreparationAlert) (maxItems : ℕ) :
    List PreparationAlert :=
  alerts.take maxItems

/-- Whether `PreparationAlerts` renders the `View all` footer (lines
497–501): `alerts.length > maxItems`. -/
def prepShowViewAll (alerts : List PreparationAlert) (maxItems : ℕ) : Bool :=
  maxItems < alerts.length

/-- `displayAlerts` of `SustainabilityAlerts`
(`SustainabilityAlerts.tsx` line 118): `alerts.slice(0, maxItems)`. -/
def susDisplayAlerts (alerts : List SustainabilityAlert) (maxItems : ℕ) :
    List SustainabilityAlert :=
  alerts.take maxItems

/-- Whether `SustainabilityAlerts` renders the `View all` footer (lines
210–214): `alerts.length > maxItems`. -/
def susShowViewAll (alerts : List SustainabilityAlert) (maxItems : ℕ) : Bool :=
  maxItems < alerts.length

/-- C10: both panels display exactly the first `min(maxItems, length)`
alerts in original order, and render `View all` iff the list has
strictly more than `maxItems` alerts. -/
theorem alert_panels_truncation (pa : List PreparationAlert)
    (sa : List SustainabilityAlert) (m : ℕ) :
    (prepDisplayAlerts pa m).length = min m pa.length ∧
    (∀ i (h : i < (prepDisplayAlerts pa m).length) (h' : i < pa.length),
      (prepDisplayAlerts pa m).get ⟨i, h⟩ = pa.get ⟨i, h'⟩) ∧
    (prepShowViewAll pa m = true ↔ m < pa.length) ∧
    (susDisplayAlerts sa m).length = min m sa.length ∧
    (∀ i (h : i < (susDisplayAlerts sa m).length) (h' : i < sa.length),
      (susDisplayAlerts sa m).get ⟨i, h⟩ = sa.get ⟨i, h'⟩) ∧
    (susShowViewAll sa m = true ↔ m < sa.length) := by
  refine ⟨List.length_take m pa, fun i h h' => ?_,
    by simp [prepShowViewAll], List.length_take m sa, fun i h h' => ?_,
    by simp [susShowViewAll]⟩
  · simp [prepDisplayAlerts] at h ⊢
  · simp [susDisplayAlerts] at h ⊢

/-- Witness for C10 on concrete three-element lists with `maxItems = 2`:
the first element is displayed unchanged and `View all` shows. -/
theorem alert_panels_truncation_witness :
    let p : PreparationAlert :=
      { id := "p", product_id := "x", product_name := "n",
        alert_type := .demand_spike, severity := .low, message := "",
        recommended_action := "", predicted_demand_increase := 0,
        days_until_event := 0, created_at := "" }
    let s : SustainabilityAlert :=
      { id := "s", product_id := "x", product_name := "n",
        alert_type := .overstock, severity := .low, message := "",
        recommended_action := "", days_until_expiry := 0,
        potential_waste_kg := 0, potential_loss_rm := 0, created_at := "" }
    (prepDisplayAlerts [p, p, p] 2).length = min 2 3 ∧
    (prepDisplayAlerts [p, p, p] 2).get ⟨0, by simp [prepDisplayAlerts]⟩ =
      [p, p, p].get ⟨0, by simp⟩ ∧
    (prepShowViewAll [p, p, p] 2 = true ↔ 2 < 3) ∧
    (susShowViewAll [s, s, s] 2 = true ↔ 2 < 3) := by
  intro p s
  have h := alert_panels_truncation [p, p, p] [s, s, s] 2
  exact ⟨h.1, h.2.1 0 (by simp [prepDisplayAlerts]) (by simp),
    by simpa using h.2.2.1, by simpa using h.2.2.2.2.2⟩

/-! ## Forecast horizon selection (ForecastsPage in ESGScorecard.tsx) -/

/-- The values of the horizon `<select>` rendered by `ForecastsPage`
(`ESGScorecard.tsx` lines 273–281): 7-, 14- and 30-day options. -/
def horizonOptions : List ℕ := [7, 14, 30]

/-- The initial `forecastDays` state of `ForecastsPage`:
`useState(14)`. -/
def initialForecastDays : ℕ := 14

/-- The `forecastDays` state after a sequence of `handleDaysChange`
events, each carrying the parsed value of the chosen option: the state
is simply replaced by the selected value. -/
def forecastDaysAfter (selections : List ℕ) : ℕ :=
  selections.foldl (fun _ s => s) initialForecastDays

/-- The `days` used by `ForecastChart` for its `/forecast?days=` fetch:
the `days` prop when given, else the default parameter `14`
(`ForecastChart.tsx` line 25). -/
def forecastChartDays (daysProp : Option ℕ) : ℕ :=
  daysProp.getD 14

/-- Modelled from the spec: the backend horizon validation (spec §4.2,
`horizon_days ∈ {7, 14, 30}` — reject other values with
`InvalidHorizon`); `backend/main.py` is not under `src/`. -/
def validateHorizon (d : ℕ) : Except String ℕ :=
  if d = 7 ∨ d = 14 ∨ d = 30 then Except.ok d else Except.error "InvalidHorizon"

/-- C8: every horizon the client can issue is in `{7, 14, 30}` — the
initial state is 14, every selection is one of the rendered options, and
the chart default is 14 — so the `InvalidHorizon` branch never fires on
a client request. -/
theorem client_horizons_always_valid (selections : List ℕ)
    (hsel : ∀ s ∈ selections, s ∈ horizonOptions) :
    forecastDaysAfter selections ∈ horizonOptions ∧
    validateHorizon (forecastDaysAfter selections) =
      Except.ok (forecastDaysAfter selections) ∧
    forecastChartDays none = 14 ∧
    validateHorizon (forecastChartDays none) = Except.ok 14 := by
  have hmem : ∀ (init : ℕ), init ∈ horizonOptions →
      selections.foldl (fun _ s => s) init ∈ horizonOptions := by
    induction selections with
    | nil => intro init h; exact h
    | cons s rest ih =>
      intro init _
      exact ih (fun x hx => hsel x (List.mem_cons_of_mem s hx))
        s (hsel s (List.mem_cons_self s rest))
  have h14 : (14 : ℕ) ∈ horizonOptions := by decide
  have hin : forecastDaysAfter selections ∈ horizonOptions := hmem 14 h14
  refine ⟨hin, ?_, rfl, rfl⟩
  have : forecastDaysAfter selections = 7 ∨ forecastDaysAfter selections = 14 ∨
      forecastDaysAfter selections = 30 := by
    simpa [horizonOptions] using hin
  simp [validateHorizon, this]

/-- Witness for C8: after selecting 30 then 7 the state is 7 and the
request is accepted. -/
theorem client_horizons_always_valid_witness :
    (∀ s ∈ [30, 7], s ∈ horizonOptions) ∧
    (forecastDaysAfter [30, 7] ∈ horizonOptions ∧
      validateHorizon (forecastDaysAfter [30, 7]) =
        Except.ok (forecastDaysAfter [30, 7]) ∧
      forecastChartDays none = 14 ∧
      validateHorizon (forecastChartDays none) = Except.ok 14) :=
  ⟨by decide, client_horizons_always_valid [30, 7] (by decide)⟩

/-! ## JavaScript division semantics and the bar-height computations -/

/-- A JavaScript number outcome: a finite rational, `NaN`, or a signed
infinity. -/
inductive JVal where
  | num : ℚ → JVal
  | nan : JVal
  | inf : JVal
  | ninf : JVal
deriving DecidableEq, Repr

/-- Whether a JavaScript value is a defined finite number. -/
def JVal.isFinite : JVal → Bool
  | .num _ => true
  | _ => false

/-- `Math.max(...xs)` over finite inputs: `-Infinity` on the empty
spread, otherwise the maximum. -/
def jsListMax (l : List ℚ) : JVal :=
  match l with
  | [] => .ninf
  | x :: xs => .num (xs.foldl max x)

/-- `(d / m) * 100` for a finite numerator `d`, with JavaScript
semantics: `0 / 0 = NaN`, `d / 0 = ±Infinity` for `d ≠ 0`, and
`d / ±Infinity = ±0` (finite). -/
def jsPercentOfMax (d : ℚ) (m : JVal) : JVal :=
  match m with
  | .num q =>
    if q = 0 then (if d = 0 then .nan else if 0 < d then .inf else .ninf)
    else .num (d / q * 100)
  | .nan => .nan
  | .inf => .num 0
  | .ninf => .num 0

/-- `maxDemand` of `ForecastChart.tsx` line 85:
`Math.max(...forecast.confidence_upper)`. -/
def chartMaxDemand (fc : ForecastResult) : JVal :=
  jsListMax fc.confidence_upper

/-- The predicted-demand bar heights of `ForecastChart.tsx` lines
146–153: `(demand / maxDemand) * 100` for each day's demand. -/
def chartBarHeights (fc : ForecastResult) : List JVal :=
  fc.predicted_demand.map (fun d => jsPercentOfMax d (chartMaxDemand fc))

/-- `maxWaste` of the ESG monthly trend (`ESGScorecard.tsx` line 196):
`Math.max(...metrics.monthly_trend.map((m) => m.waste_kg))`. -/
def esgMaxWaste (trend : List MonthlyTrend) : JVal :=
  jsListMax (trend.map (fun m => m.waste_kg))

/-- `wasteHeight` bars of the ESG monthly trend (`ESGScorecard.tsx`
line 197): `(month.waste_kg / maxWaste) * 100`. -/
def esgWasteHeights (trend : List MonthlyTrend) : List JVal :=
  trend.map (fun m => jsPercentOfMax m.waste_kg (esgMaxWaste trend))

/-- `savedHeight` bars of the ESG monthly trend (`ESGScorecard.tsx`
line 198): `(month.saved_kg / maxWaste) * 100`. -/
def esgSavedHeights (trend : List MonthlyTrend) : List JVal :=
  trend.map (fun m => jsPercentOfMax m.saved_kg (esgMaxWaste trend))

/-- A forecast whose whole confidence band is zero (an all-zero demand
product): `maxDemand = 0`. -/
def zeroBandForecast : ForecastResult :=
  { product_id := "p1"
    product_name := "Zero demand product"
    dates := ["2026-10-13"]
    predicted_demand := [0]
    confidence_lower := [0]
    confidence_upper := [0]
    trend := .stable
    festive_impact := none }

/-- A monthly trend whose months all have `waste_kg = 0`. -/
def zeroWasteTrend : List MonthlyTrend :=
  [{ month := "Jan 2026", waste_kg := 0, saved_kg := 0 }]

/-- Counterexample to C3: with an all-zero confidence band the chart bar
height is `0 / 0 = NaN`, and with an all-zero-waste month the ESG trend
bar heights are `NaN` — the code substitutes no fallback, so the
displayed quantities are not defined finite numbers. -/
theorem nan_bar_height_counterexample :
    chartBarHeights zeroBandForecast = [JVal.nan] ∧
    (chartBarHeights zeroBandForecast).all JVal.isFinite = false ∧
    esgWasteHeights zeroWasteTrend = [JVal.nan] ∧
    esgSavedHeights zeroWasteTrend = [JVal.nan] := by
  refine ⟨?_, ?_, ?_, ?_⟩ <;> rfl

/-- C3 (amended): when the maximum being divided by is a nonzero finite
number, every chart bar height and every ESG monthly-trend bar height is
a defined finite number; when that maximum is zero the division yields
`NaN` (or `±Infinity`) with no fallback substituted. -/
theorem bar_heights_finite_of_nonzero_max :
    (∀ (fc : ForecastResult) (q : ℚ), chartMaxDemand fc = JVal.num q → q ≠ 0 →
      ∀ h ∈ chartBarHeights fc, h.isFinite = true) ∧
    (∀ (trend : List MonthlyTrend) (q : ℚ), esgMaxWaste trend = JVal.num q →
      q ≠ 0 →
      (∀ h ∈ esgWasteHeights trend, h.isFinite = true) ∧
      (∀ h ∈ esgSavedHeights trend, h.isFinite = true)) := by
  constructor
  · intro fc q hm hq h hh
    obtain ⟨d, _, rfl⟩ := List.mem_map.mp hh
    rw [hm]
    simp [jsPercentOfMax, hq, JVal.isFinite]
  · intro trend q hm hq
    constructor <;> intro h hh <;> obtain ⟨d, _, rfl⟩ := List.mem_map.mp hh <;>
      rw [hm] <;> simp [jsPercentOfMax, hq, JVal.isFinite]

/-- Witness for the amended C3: a one-day forecast with band maximum 2
and a one-month trend with waste 4 give finite bar heights. -/
theorem bar_heights_finite_of_nonzero_max_witness :
    let fc : ForecastResult :=
      { product_id := "p", product_name := "n", dates := ["d"],
        predicted_demand := [1], confidence_lower := [0],
        confidence_upper := [2], trend := .stable, festive_impact := none }
    let tr : List MonthlyTrend := [{ month := "Jan", waste_kg := 4, saved_kg := 3 }]
    (chartMaxDemand fc = JVal.num 2 ∧ (2 : ℚ) ≠ 0 ∧
      ∀ h ∈ chartBarHeights fc, h.isFinite = true) ∧
    (esgMaxWaste tr = JVal.num 4 ∧ (4 : ℚ) ≠ 0 ∧
      ∀ h ∈ esgWasteHeights tr, h.isFinite = true) := by
  intro fc tr
  refine ⟨⟨rfl, by norm_num, ?_⟩, ⟨rfl, by norm_num, ?_⟩⟩
  · exact bar_heights_finite_of_nonzero_max.1 fc 2 rfl (by norm_num)
  · exact (bar_heights_finite_of_nonzero_max.2 tr 4 rfl (by norm_num)).1

/-! ## Spec-modelled Forecaster (backend/main.py is not under src/) -/

/-- Clamp a rational to `[lo, hi]` (spec §4.1's sane-range clamp). -/
def clampQ (lo hi x : ℚ) : ℚ :=
  max lo (min hi x)

/-- Arithmetic mean of a list of rationals (0 on the empty list). -/
def meanQ (l : List ℚ) : ℚ :=
  l.sum / l.length

/-- Modelled from the spec: trend classification (spec §4.2 step 5) —
compare the mean of the first 3 and last 3 predicted days; `increasing`
if last > first × 1.1, `decreasing` if last < first × 0.9, else
`stable`. -/
def trendOf (preds : List ℚ) : Trend :=
  let f := meanQ (preds.take 3)
  let l := meanQ (preds.reverse.take 3)
  if f * (11 / 10) < l then .increasing
  else if l < f * (9 / 10) then .decreasing
  else .stable

/-- Modelled from the spec: the widening factor `sqrt(i+1)` of the
confidence-band formula (spec §4.2 step 4), represented by the
nonnegative integer square root — only its nonnegativity and widening
shape matter for the stated contract. -/
def widthFactor (i : ℕ) : ℚ :=
  (Nat.sqrt (i + 1) : ℚ)

/-- Modelled from the spec: one day's unadjusted-then-overlaid
prediction (spec §4.2 steps 1–3) — step 1's regression gives `baseline`
and `slope`; step 2 multiplies by the day-of-week multiplier (clamped to
`[0.5, 3.0]`, spec §4.1) and the payday multiplier; step 3 applies the
festival overlay multiplier; predictions are floored at 0 (spec §6: all
numeric fields are non-negative). -/
def predAt (baseline slope : ℚ) (dow payday festMult : ℕ → ℚ) (i : ℕ) : ℚ :=
  max 0 ((baseline + slope * (i + 1)) * clampQ (1 / 2) 3 (dow i) *
    payday i * festMult i)

/-- Modelled from the spec: the symmetric confidence-band width
`bound(i) = predicted(i) × k × sqrt(i+1)` (spec §4.2 step 4). -/
def boundAt (baseline slope : ℚ) (dow payday festMult : ℕ → ℚ) (k : ℚ)
    (i : ℕ) : ℚ :=
  predAt baseline slope dow payday festMult i * k * widthFactor i

/-- Modelled from the spec: the backend `forecast(product, horizon_days)`
of spec §4.2 (`backend/main.py` is not under `src/`).  Predictions per
day come from `predAt`, the band from `boundAt` applied symmetrically
with `confidence_lower` floored at 0, the trend label from `trendOf`;
the output arrays are built over `horizon` consecutive future days and
the overlapping festival name is recorded as `festive_impact`. -/
def forecastEngine (pid pname : String) (baseline slope : ℚ)
    (dow payday festMult : ℕ → ℚ) (festName : Option String) (k : ℚ)
    (horizon : ℕ) : ForecastResult :=
  { product_id := pid
    product_name := pname
    dates := (List.range horizon).map (fun i => toString (i + 1))
    predicted_demand :=
      (List.range horizon).map (predAt baseline slope dow payday festMult)
    confidence_lower := (List.range horizon).map (fun i =>
      max 0 (predAt baseline slope dow payday festMult i -
        boundAt baseline slope dow payday festMult k i))
    confidence_upper := (List.range horizon).map (fun i =>
      predAt baseline slope dow payday festMult i +
        boundAt baseline slope dow payday festMult k i)
    trend := trendOf
      ((List.range horizon).map (predAt baseline slope dow payday festMult))
    festive_impact := festName }

/-- All four output arrays of a forecast have the requested length. -/
def forecastArraysLen (fc : ForecastResult) (horizon : ℕ) : Prop :=
  fc.dates.length = horizon ∧ fc.predicted_demand.length = horizon ∧
  fc.confidence_lower.length = horizon ∧ fc.confidence_upper.length = horizon

/-- At index `i` all three demand arrays are populated and satisfy
`confidence_lower[i] ≤ predicted_demand[i] ≤ confidence_upper[i]`. -/
def forecastBoundsAt (fc : ForecastResult) (i : ℕ) : Prop :=
  ∃ l p u, fc.confidence_lower[i]? = some l ∧
    fc.predicted_demand[i]? = some p ∧ fc.confidence_upper[i]? = some u ∧
    l ≤ p ∧ p ≤ u

/-- C2: for every forecast the engine produces with a nonnegative band
coefficient `k`, the four output arrays have length `horizon`, and at
every index inside the horizon the confidence interval contains the
prediction. -/
theorem forecast_bounds_and_lengths (pid pname : String) (baseline slope : ℚ)
    (dow payday festMult : ℕ → ℚ) (festName : Option String) (k : ℚ)
    (horizon : ℕ) (hk : 0 ≤ k) (i : ℕ) (hi : i < horizon) :
    forecastArraysLen
      (forecastEngine pid pname baseline slope dow payday festMult festName k
        horizon) horizon ∧
    forecastBoundsAt
      (forecastEngine pid pname baseline slope dow payday festMult festName k
        horizon) i := by
  have hget : ∀ (g : ℕ → ℚ), ((List.range horizon).map g)[i]? = some (g i) := by
    intro g
    rw [List.getElem?_map, List.getElem?_range hi]
    rfl
  have hp : 0 ≤ predAt baseline slope dow payday festMult i :=
    le_max_left 0 _
  have hw : 0 ≤ widthFactor i := by
    unfold widthFactor
    exact_mod_cast Nat.zero_le _
  have hb : 0 ≤ boundAt baseline slope dow payday festMult k i :=
    mul_nonneg (mul_nonneg hp hk) hw
  constructor
  · exact ⟨List.length_map _ _ |>.trans (List.length_range horizon),
      List.length_map _ _ |>.trans (List.length_range horizon),
      List.length_map _ _ |>.trans (List.length_range horizon),
      List.length_map _ _ |>.trans (List.length_range horizon)⟩
  · exact ⟨max 0 (predAt baseline slope dow payday festMult i -
        boundAt baseline slope dow payday festMult k i),
      predAt baseline slope dow payday festMult i,
      predAt baseline slope dow payday festMult i +
        boundAt baseline slope dow payday festMult k i,
      hget _, hget _, hget _,
      max_le hp (sub_le_self _ hb), le_add_of_nonneg_right hb⟩

/-- Witness for C2: a flat 10-units-per-day history, unit multipliers,
`k = 0.15` and a 7-day horizon, checked at day index 3. -/
theorem forecast_bounds_and_lengths_witness :
    (0 : ℚ) ≤ 3 / 20 ∧ (3 : ℕ) < 7 ∧
    (forecastArraysLen
      (forecastEngine "p" "n" 10 0 (fun _ => 1) (fun _ => 1) (fun _ => 1)
        none (3 / 20) 7) 7 ∧
    forecastBoundsAt
      (forecastEngine "p" "n" 10 0 (fun _ => 1) (fun _ => 1) (fun _ => 1)
        none (3 / 20) 7) 3) :=
  ⟨by norm_num, by norm_num,
   forecast_bounds_and_lengths "p" "n" 10 0 (fun _ => 1) (fun _ => 1)
     (fun _ => 1) none (3 / 20) 7 (by norm_num) 3 (by norm_num)⟩

end FreshPredict
